import Mathlib

/-!
Verification development for the wheeler repository: a shallow embedding of
the backtesting core (Black-Scholes option pricing, the synthetic option
chain generator, the position ledger of the two backtest engines, the RSI
technical filter, and the performance reporter), together with theorems
settling the specification claims about them.

Conventions of the embedding:
* Python floats are modelled as real numbers (`ℝ`) where the code computes
  with transcendental functions, and as rationals (`ℚ`) in the ledger and
  reporter code, whose arithmetic is plain field arithmetic.
* `scipy.stats.norm.cdf` is modelled as the cumulative distribution function
  of the standard Gaussian measure.
* Division by zero follows the Lean convention `x / 0 = 0`; no claim settled
  here depends on a branch where the Python code would instead produce
  `inf`/`NaN` (the one such spot, `float('inf')` for a zero ask, is modelled
  explicitly with `Option`).
* Python `round(x, 2)` is modelled with `round (x * 100) / 100`; no theorem
  depends on the tie-breaking direction of rounding.
-/

open scoped Classical

/-- Standard normal cumulative distribution function, the model of
`scipy.stats.norm.cdf`. -/
noncomputable def normCdf (x : ℝ) : ℝ :=
  ProbabilityTheory.cdf (ProbabilityTheory.gaussianReal 0 1) x

lemma normCdf_nonneg (x : ℝ) : 0 ≤ normCdf x :=
  ProbabilityTheory.cdf_nonneg _ x

lemma normCdf_le_one (x : ℝ) : normCdf x ≤ 1 :=
  ProbabilityTheory.cdf_le_one _ x

/-! ## Option pricing model, fast engine (run_fast_backtest.py)

`calculate_delta` and `calculate_premium` embed the module-level functions of
`run_fast_backtest.py` (risk-free rate fixed at 0.05, volatility `iv` a
parameter defaulting to 0.35 at the call sites). -/

/-- `calculate_delta(price, strike, dte, is_put, iv)` from run_fast_backtest.py. -/
noncomputable def calculate_delta (price strike : ℝ) (dte : ℤ) (isPut : Bool)
    (iv : ℝ) : ℝ :=
  let T : ℝ := ((max 1 dte : ℤ) : ℝ) / 365
  if T ≤ 0 ∨ price ≤ 0 ∨ strike ≤ 0 then 0
  else
    let d1 := (Real.log (price / strike) + (0.05 + 0.5 * iv ^ 2) * T) / (iv * Real.sqrt T)
    if isPut then normCdf d1 - 1 else normCdf d1

/-- `calculate_premium(price, strike, dte, is_put, iv)` from run_fast_backtest.py. -/
noncomputable def calculate_premium (price strike : ℝ) (dte : ℤ) (isPut : Bool)
    (iv : ℝ) : ℝ :=
  let T : ℝ := ((max 1 dte : ℤ) : ℝ) / 365
  if T ≤ 0 ∨ price ≤ 0 ∨ strike ≤ 0 then 0.01
  else
    let d1 := (Real.log (price / strike) + (0.05 + 0.5 * iv ^ 2) * T) / (iv * Real.sqrt T)
    let d2 := d1 - iv * Real.sqrt T
    let premium :=
      if isPut then strike * Real.exp (-0.05 * T) * normCdf (-d2) - price * normCdf (-d1)
      else price * normCdf d1 - strike * Real.exp (-0.05 * T) * normCdf d2
    max 0.01 premium

/-! ## Option pricing model, historical data provider
(src/backtesting/historical_data.py, class AlpacaHistoricalDataProvider;
risk-free rate 0.04 and volatility 0.30 are fixed inside the methods). -/

/-- `AlpacaHistoricalDataProvider._calculate_d1`. -/
noncomputable def provider_calculate_d1 (S K T r sigma : ℝ) : ℝ :=
  if T ≤ 0 ∨ S ≤ 0 ∨ K ≤ 0 ∨ sigma ≤ 0 then 0
  else (Real.log (S / K) + (r + 0.5 * sigma ^ 2) * T) / (sigma * Real.sqrt T)

/-- `AlpacaHistoricalDataProvider._calculate_delta`. -/
noncomputable def provider_calculate_delta (S K : ℝ) (D : ℤ) (isPut : Bool) : ℝ :=
  let T : ℝ := ((max 1 D : ℤ) : ℝ) / 365
  let d1 := provider_calculate_d1 S K T 0.04 0.3
  if isPut then normCdf d1 - 1 else normCdf d1

/-- `AlpacaHistoricalDataProvider._calculate_option_premium`. -/
noncomputable def provider_calculate_option_premium (S K : ℝ) (D : ℤ) (isPut : Bool) : ℝ :=
  let T : ℝ := ((max 1 D : ℤ) : ℝ) / 365
  let d1 := provider_calculate_d1 S K T 0.04 0.3
  let d2 := d1 - 0.3 * Real.sqrt T
  let price :=
    if isPut then K * Real.exp (-0.04 * T) * normCdf (-d2) - S * normCdf (-d1)
    else S * normCdf d1 - K * Real.exp (-0.04 * T) * normCdf d2
  max 0.01 price

/-! ## The Black-Scholes premium exactly as the specification words it
(spec section 4.1): this definition follows the spec text, for comparison
with the two source-embedded pricers above. -/

/-- Black-Scholes premium as written in the spec: `T = max(1,D)/365`,
`d1 = (ln(S/K) + (r + sigma^2/2) T) / (sigma sqrt T)`, `d2 = d1 - sigma sqrt T`,
put `= K exp(-rT) Phi(-d2) - S Phi(-d1)`, call `= S Phi(d1) - K exp(-rT) Phi(d2)`. -/
noncomputable def bsPremiumSpec (S K : ℝ) (D : ℤ) (isPut : Bool) (sigma r : ℝ) : ℝ :=
  let T : ℝ := ((max 1 D : ℤ) : ℝ) / 365
  let d1 := (Real.log (S / K) + (r + sigma ^ 2 / 2) * T) / (sigma * Real.sqrt T)
  let d2 := d1 - sigma * Real.sqrt T
  if isPut then K * Real.exp (-r * T) * normCdf (-d2) - S * normCdf (-d1)
  else S * normCdf d1 - K * Real.exp (-r * T) * normCdf d2

lemma maxOne_dte_pos (dte : ℤ) : (0 : ℝ) < ((max 1 dte : ℤ) : ℝ) / 365 := by
  have h1 : (1 : ℤ) ≤ max 1 dte := le_max_left _ _
  have : (1 : ℝ) ≤ ((max 1 dte : ℤ) : ℝ) := by exact_mod_cast h1
  linarith

/-! ## Position ledger of the fast engine (run_fast_backtest.py, FastBacktester)

Trade actions of both engines, and the fast engine's `Position` dataclass
(`position_type` in {CSP, STOCK, CC}; unspecified fields default to 0 as in
the dataclass). Monetary amounts are modelled in `ℚ`. -/

inductive TradeAction where
  | sellPut
  | putAssigned
  | putExpired
  | sellCall
  | callAssigned
  | callExpired
  deriving DecidableEq, Repr

inductive FPosType where
  | csp
  | stock
  | cc
  deriving DecidableEq, Repr

/-- The fast engine's `Position` dataclass. -/
structure FPosition where
  symbol : ℕ
  ptype : FPosType
  strike : ℚ := 0
  premium : ℚ := 0
  shares : ℕ := 0
  cost_basis : ℚ := 0
  deriving DecidableEq, Repr

/-- `FastBacktester._handle_csp_expiration`: the spot is looked up in the
price cache (`none` when no price is available for the day, in which case the
code falls back to the strike); on assignment the put is replaced by a
100-share stock position with `cost_basis = strike - premium`, otherwise the
put is simply removed.  Returns (new capital, new positions, logged action). -/
def handle_csp_expiration (spot : Option ℚ) (pos : FPosition) (capital : ℚ)
    (positions : List FPosition) : ℚ × List FPosition × TradeAction :=
  let price := spot.getD pos.strike
  if price < pos.strike then
    (capital - pos.strike * 100,
     positions.erase pos ++
       [{ symbol := pos.symbol, ptype := .stock, shares := 100,
          cost_basis := pos.strike - pos.premium }],
     .putAssigned)
  else
    (capital, positions.erase pos, .putExpired)

/-! ## Position ledger of the decimal engine
(src/backtesting/wheel_backtester.py, WheelBacktester). -/

inductive WPosType where
  | cashSecuredPut
  | coveredCall
  | stockKind
  deriving DecidableEq, Repr

/-- The decimal engine's `Position` model (src/models/position.py): nullable
`strike_price` and `premium_received` are modelled with default 0, which the
code only reads on option positions. -/
structure WPosition where
  symbol : ℕ
  entry_price : ℚ
  quantity : ℕ
  ptype : WPosType
  strike_price : ℚ := 0
  premium_received : ℚ := 0
  deriving DecidableEq, Repr

/-- `WheelBacktester._handle_option_expiration`: returns immediately (state
unchanged, nothing logged) when no spot price is available; otherwise handles
put assignment/expiry and call assignment/expiry exactly as the source.
Returns (new capital, new positions, logged actions). -/
def wheel_handle_option_expiration (spot : Option ℚ) (pos : WPosition) (capital : ℚ)
    (positions : List WPosition) : ℚ × List WPosition × List TradeAction :=
  match spot with
  | none => (capital, positions, [])
  | some price =>
    if pos.ptype = .cashSecuredPut then
      if price < pos.strike_price then
        (capital - pos.strike_price * pos.quantity,
         positions.erase pos ++
           [{ symbol := pos.symbol, entry_price := pos.strike_price,
              quantity := pos.quantity, ptype := .stockKind,
              premium_received := pos.premium_received }],
         [.putAssigned])
      else
        (capital, positions.erase pos, [.putExpired])
    else if pos.ptype = .coveredCall then
      if pos.strike_price < price then
        let stockToRemove := positions.find? fun p =>
          p.symbol = pos.symbol ∧ p.ptype = .stockKind ∧ pos.quantity ≤ p.quantity
        let afterStock := match stockToRemove with
          | some sp => positions.erase sp
          | none => positions
        (capital + pos.strike_price * pos.quantity, afterStock.erase pos, [.callAssigned])
      else
        (capital, positions.erase pos, [.callExpired])
    else
      (capital, positions, [])

/-- A contract of the option chain as consumed by
`WheelBacktester._try_sell_covered_call` (only the fields that method reads:
whether the id holds a C, the strike, and the bid). -/
structure ChainOption where
  isCall : Bool
  strike : ℚ
  bid : ℚ
  deriving DecidableEq, Repr

/-- The scan inside `WheelBacktester._try_sell_covered_call`: walk the chain,
skip puts, and select the first call whose strike/spot ratio lies in
[1.05, 1.10].  No comparison against the stock position's cost basis is made. -/
def suitable_call (price : ℚ) : List ChainOption → Option ChainOption
  | [] => none
  | o :: rest =>
    if !o.isCall then suitable_call price rest
    else if 1.05 ≤ o.strike / price ∧ o.strike / price ≤ 1.10 then some o
    else suitable_call price rest

/-- `WheelBacktester._try_sell_covered_call` followed by `_sell_call`: if no
covered call is already open on the symbol and the chain scan finds a
suitable call, sell it (credit `bid * contracts * 100`, append a COVERED_CALL
position whose strike is the call's strike). -/
def try_sell_covered_call (price : ℚ) (chain : List ChainOption)
    (stockPos : WPosition) (capital : ℚ) (positions : List WPosition) :
    ℚ × List WPosition :=
  if positions.any fun p => p.symbol = stockPos.symbol ∧ p.ptype = .coveredCall then
    (capital, positions)
  else
    match suitable_call price chain with
    | none => (capital, positions)
    | some c =>
      let contracts : ℕ := stockPos.quantity / 100
      if contracts = 0 then (capital, positions)
      else
        (capital + c.bid * contracts * 100,
         positions ++
           [{ symbol := stockPos.symbol, entry_price := c.strike,
              quantity := contracts * 100, ptype := .coveredCall,
              strike_price := c.strike, premium_received := c.bid }])

/-! ## Claims C1, C7, C2: put expiration, missing spot, covered-call strike -/

/-- C7 counterexample: with no spot price available, the fast engine's CSP
expiration handler does NOT leave the open positions unchanged: it falls back
to `price = strike` and expires the put, removing the position. -/
theorem c7_missing_spot_counterexample :
    (handle_csp_expiration none ⟨0, .csp, 90, 2, 0, 0⟩ 10000
        [⟨0, .csp, 90, 2, 0, 0⟩]).2.1 = [] ∧
    ([] : List FPosition) ≠ [⟨0, .csp, 90, 2, 0, 0⟩] := by
  constructor
  · simp [handle_csp_expiration]
  · simp

/-- C7 amended: on a day with no spot price, the decimal engine's expiration
handler leaves cash, positions and the trade log unchanged (a hold), while
the fast engine substitutes the strike for the missing spot, so the option
expires unassigned: cash is unchanged but the put position is removed.
Neither path raises. -/
theorem c7_missing_spot (wpos : WPosition) (fpos : FPosition) (capital : ℚ)
    (wpositions : List WPosition) (fpositions : List FPosition) :
    wheel_handle_option_expiration none wpos capital wpositions
        = (capital, wpositions, []) ∧
    (handle_csp_expiration none fpos capital fpositions).1 = capital ∧
    (handle_csp_expiration none fpos capital fpositions).2.1
        = fpositions.erase fpos ∧
    (handle_csp_expiration none fpos capital fpositions).2.2 = .putExpired := by
  refine ⟨rfl, ?_, ?_, ?_⟩ <;>
    simp [handle_csp_expiration, lt_irrefl]

/-- C2 counterexample: the decimal engine's `_try_sell_covered_call` performs
no cost-basis check.  Holding 100 shares whose (adjusted) cost basis is 100,
with spot 50 and a chain containing a call at strike 55 (ratio 1.10), it
sells that call: the resulting state holds a covered call struck at 55 < 100,
violating the claimed invariant. -/
theorem c2_covered_call_counterexample :
    (try_sell_covered_call 50 [⟨true, 55, 1⟩] ⟨7, 100, 100, .stockKind, 0, 0⟩ 0
        [⟨7, 100, 100, .stockKind, 0, 0⟩]).2
      = [⟨7, 100, 100, .stockKind, 0, 0⟩, ⟨7, 55, 100, .coveredCall, 55, 1⟩] ∧
    (⟨7, 55, 100, .coveredCall, 55, 1⟩ : WPosition).strike_price
      < (⟨7, 100, 100, .stockKind, 0, 0⟩ : WPosition).entry_price := by
  constructor
  · simp [try_sell_covered_call, suitable_call]
    norm_num
  · norm_num

/-! ## Covered-call search of the fast engine (`find_call_by_delta`) -/

/-- Python `round(x, 2)`, modelled as rounding `x*100` to the nearest integer
(tie direction immaterial to every theorem below). -/
noncomputable def round2 (x : ℝ) : ℝ := ((round (x * 100) : ℤ) : ℝ) / 100

/-- The strike offsets scanned by `find_call_by_delta`: `range(2, 16, 1)`. -/
def callStrikePcts : List ℤ := [2, 3, 4, 5, 6, 7, 8, 9, 10, 11, 12, 13, 14, 15]

/-- The loop body of `find_call_by_delta`: strikes below the cost basis are
skipped; the first remaining strike whose call premium exceeds 0.10 is
returned as (strike, premium, delta). -/
noncomputable def find_call_scan (price cost_basis : ℝ) (dte : ℤ) (iv : ℝ) :
    List ℤ → Option (ℝ × ℝ × ℝ)
  | [] => none
  | pct :: rest =>
    let strike := round2 (price * (1 + (pct : ℝ) / 100))
    if strike < cost_basis then find_call_scan price cost_basis dte iv rest
    else if 0.10 < calculate_premium price strike dte false iv then
      some (strike, calculate_premium price strike dte false iv,
        calculate_delta price strike dte false iv)
    else find_call_scan price cost_basis dte iv rest

/-- `find_call_by_delta(price, cost_basis, dte, iv)` from run_fast_backtest.py. -/
noncomputable def find_call_by_delta (price cost_basis : ℝ) (dte : ℤ) (iv : ℝ) :
    Option (ℝ × ℝ × ℝ) :=
  find_call_scan price cost_basis dte iv callStrikePcts

lemma find_call_scan_ge (price cost_basis : ℝ) (dte : ℤ) (iv : ℝ) :
    ∀ l : List ℤ,
      cost_basis ≤ (((find_call_scan price cost_basis dte iv l).map
        fun o => o.1).getD cost_basis)
  | [] => le_refl _
  | pct :: rest => by
    simp only [find_call_scan]
    split_ifs with h1 h2
    · exact find_call_scan_ge price cost_basis dte iv rest
    · simpa using not_lt.mp h1
    · exact find_call_scan_ge price cost_basis dte iv rest

/-- C2 amended: the fast engine's covered-call finder never returns a strike
below the cost basis (strikes below it are skipped), so every covered call it
sells has strike >= cost basis; the decimal engine's
`_try_sell_covered_call`, by contrast, checks only the strike/spot ratio
(see the counterexample). -/
theorem c2_find_call_strike_ge_cost_basis (price cost_basis : ℝ) (dte : ℤ) (iv : ℝ) :
    cost_basis ≤ (((find_call_by_delta price cost_basis dte iv).map
      fun o => o.1).getD cost_basis) :=
  find_call_scan_ge price cost_basis dte iv callStrikePcts

/-! ## Claim C4: degenerate pricing inputs -/

/-- C4 counterexample: on the degenerate input S = -1 the fast pricer
returns the floor premium 0.01, not the zero premium the claim states. -/
theorem c4_degenerate_counterexample :
    calculate_premium (-1) 100 30 true 0.35 = 0.01 ∧ (0.01 : ℝ) ≠ 0 := by
  constructor
  · unfold calculate_premium
    rw [if_pos (Or.inr (Or.inl (by norm_num)))]
  · norm_num

/-- C4 amended: degenerate inputs (S <= 0 or K <= 0; T = max(1,D)/365 is
always positive) never raise: the fast engine returns delta 0 and the floor
premium 0.01 (not 0); the historical-data provider guards only d1 (returning
d1 = 0), so its delta is Phi(0) - 1 for puts and Phi(0) for calls (i.e.
-0.5 / +0.5, not 0) and its premium stays floored at 0.01. -/
theorem c4_degenerate_inputs (S K : ℝ) (dte : ℤ) (isPut : Bool) (iv : ℝ)
    (h : S ≤ 0 ∨ K ≤ 0) :
    calculate_delta S K dte isPut iv = 0 ∧
    calculate_premium S K dte isPut iv = 0.01 ∧
    provider_calculate_d1 S K (((max 1 dte : ℤ) : ℝ) / 365) 0.04 0.3 = 0 ∧
    provider_calculate_delta S K dte isPut
      = (if isPut then normCdf 0 - 1 else normCdf 0) ∧
    0.01 ≤ provider_calculate_option_premium S K dte isPut := by
  have hguard : (((max 1 dte : ℤ) : ℝ) / 365) ≤ 0 ∨ S ≤ 0 ∨ K ≤ 0 :=
    Or.inr h
  have hguard4 : (((max 1 dte : ℤ) : ℝ) / 365) ≤ 0 ∨ S ≤ 0 ∨ K ≤ 0 ∨ (0.3 : ℝ) ≤ 0 :=
    Or.inr (h.imp id Or.inl)
  have hd1 : provider_calculate_d1 S K (((max 1 dte : ℤ) : ℝ) / 365) 0.04 0.3 = 0 := by
    unfold provider_calculate_d1
    rw [if_pos hguard4]
  refine ⟨?_, ?_, hd1, ?_, le_max_left _ _⟩
  · unfold calculate_delta
    rw [if_pos hguard]
  · unfold calculate_premium
    rw [if_pos hguard]
  · simp only [provider_calculate_delta]
    rw [hd1]

/-- Witness for C4 amended, at the counterexample input S = -1. -/
theorem c4_degenerate_inputs_witness :
    ((-1 : ℝ) ≤ 0 ∨ (100 : ℝ) ≤ 0) ∧
    calculate_delta (-1) 100 30 true 0.35 = 0 ∧
    calculate_premium (-1) 100 30 true 0.35 = 0.01 ∧
    provider_calculate_delta (-1) 100 30 true = normCdf 0 - 1 := by
  have h : (-1 : ℝ) ≤ 0 ∨ (100 : ℝ) ≤ 0 := Or.inl (by norm_num)
  have := c4_degenerate_inputs (-1) 100 30 true 0.35 h
  exact ⟨h, this.1, this.2.1, by simpa using this.2.2.2.1⟩

/-! ## Claim C3: the pricers compute the floored Black-Scholes premium -/

/-- C3: both pricers return premiums floored at 0.01 (hence always >= 0.01),
and for S > 0, K > 0 each equals `max 0.01` of the Black-Scholes premium as
the spec words it (fast engine with its volatility parameter and r = 0.05,
provider with sigma = 0.3 and r = 0.04), with T = max(1,D)/365. -/
theorem c3_premium_is_black_scholes (S K : ℝ) (dte : ℤ) (isPut : Bool) (iv : ℝ) :
    0.01 ≤ calculate_premium S K dte isPut iv ∧
    0.01 ≤ provider_calculate_option_premium S K dte isPut ∧
    (0 < S → 0 < K →
      calculate_premium S K dte isPut iv
          = max 0.01 (bsPremiumSpec S K dte isPut iv 0.05) ∧
      provider_calculate_option_premium S K dte isPut
          = max 0.01 (bsPremiumSpec S K dte isPut 0.3 0.04)) := by
  have hT := maxOne_dte_pos dte
  refine ⟨?_, ?_, ?_⟩
  · simp only [calculate_premium]
    split_ifs <;> first | exact le_refl _ | exact le_max_left _ _
  · simp only [provider_calculate_option_premium]
    exact le_max_left _ _
  · intro hS hK
    constructor
    · simp only [calculate_premium, bsPremiumSpec]
      rw [if_neg (by simp only [not_or, not_le]; exact ⟨hT, hS, hK⟩)]
      have hc : (0.05 + 0.5 * iv ^ 2 : ℝ) = 0.05 + iv ^ 2 / 2 := by ring
      rw [hc]
    · have hng : ¬((((max 1 dte : ℤ) : ℝ) / 365) ≤ 0 ∨ S ≤ 0 ∨ K ≤ 0 ∨ (0.3 : ℝ) ≤ 0) := by
        simp only [not_or, not_le]
        exact ⟨hT, hS, hK, by norm_num⟩
      have hc : (0.04 + 0.5 * (0.3 : ℝ) ^ 2) = 0.04 + (0.3 : ℝ) ^ 2 / 2 := by ring
      simp only [provider_calculate_option_premium, provider_calculate_d1, bsPremiumSpec,
        if_neg hng, hc]

/-- Witness for C3 at S = 100, K = 90, D = 30, a put, iv = 0.35. -/
theorem c3_premium_is_black_scholes_witness :
    (0 : ℝ) < 100 ∧ (0 : ℝ) < 90 ∧
    calculate_premium 100 90 30 true 0.35
        = max 0.01 (bsPremiumSpec 100 90 30 true 0.35 0.05) ∧
    provider_calculate_option_premium 100 90 30 true
        = max 0.01 (bsPremiumSpec 100 90 30 true 0.3 0.04) := by
  have h := (c3_premium_is_black_scholes 100 90 30 true 0.35).2.2
    (by norm_num) (by norm_num)
  exact ⟨by norm_num, by norm_num, h.1, h.2⟩

/-! ## Claim C10: delta always lies in [0,1] for calls, [-1,0] for puts -/

/-- C10: for every input (degenerate ones included) the fast engine's call
delta lies in [0,1] and its put delta in [-1,0], and likewise for the
historical-data provider's delta; in the real-number model no NaN exists, so
no input escapes the bounds. -/
theorem c10_delta_bounds (S K : ℝ) (dte : ℤ) (iv : ℝ) :
    (0 ≤ calculate_delta S K dte false iv ∧ calculate_delta S K dte false iv ≤ 1) ∧
    (-1 ≤ calculate_delta S K dte true iv ∧ calculate_delta S K dte true iv ≤ 0) ∧
    (0 ≤ provider_calculate_delta S K dte false ∧
      provider_calculate_delta S K dte false ≤ 1) ∧
    (-1 ≤ provider_calculate_delta S K dte true ∧
      provider_calculate_delta S K dte true ≤ 0) := by
  refine ⟨⟨?_, ?_⟩, ⟨?_, ?_⟩, ⟨?_, ?_⟩, ⟨?_, ?_⟩⟩
  · simp only [calculate_delta, Bool.false_eq_true, if_false]
    split_ifs
    · exact le_refl _
    · exact normCdf_nonneg _
  · simp only [calculate_delta, Bool.false_eq_true, if_false]
    split_ifs
    · exact zero_le_one
    · exact normCdf_le_one _
  · simp only [calculate_delta, if_true]
    split_ifs
    · norm_num
    · linarith [normCdf_nonneg ((Real.log (S / K) + (0.05 + 0.5 * iv ^ 2) *
        (((max 1 dte : ℤ) : ℝ) / 365)) / (iv * Real.sqrt (((max 1 dte : ℤ) : ℝ) / 365)))]
  · simp only [calculate_delta, if_true]
    split_ifs
    · exact le_refl _
    · linarith [normCdf_le_one ((Real.log (S / K) + (0.05 + 0.5 * iv ^ 2) *
        (((max 1 dte : ℤ) : ℝ) / 365)) / (iv * Real.sqrt (((max 1 dte : ℤ) : ℝ) / 365)))]
  · simp only [provider_calculate_delta, Bool.false_eq_true, if_false]
    exact normCdf_nonneg _
  · simp only [provider_calculate_delta, Bool.false_eq_true, if_false]
    exact normCdf_le_one _
  · simp only [provider_calculate_delta, if_true]
    linarith [normCdf_nonneg
      (provider_calculate_d1 S K (((max 1 dte : ℤ) : ℝ) / 365) 0.04 0.3)]
  · simp only [provider_calculate_delta, if_true]
    linarith [normCdf_le_one
      (provider_calculate_d1 S K (((max 1 dte : ℤ) : ℝ) / 365) 0.04 0.3)]

/-! ## Claim C9: the synthetic option chain and the spread liquidity check

`AlpacaHistoricalDataProvider.get_historical_options` generates strikes at
-20%..+20% of spot in 5% steps and, for each, a put and a call quote with
`bid = premium * 0.95`, `ask = premium * 1.05`, volume 1000, open interest
5000.  `OptionQuote.spread_percentage` (src/models/position.py) is
`(ask - bid)/ask * 100`, `float('inf')` when ask = 0 (modelled as `none`);
`StrategyAnalyzer._is_liquid` rejects a quote when that spread exceeds
`max_spread_percentage` (default 15.0). -/

/-- A synthetic option contract as emitted by `get_historical_options`
(the fields the liquidity check and the strategy analyzer consume). -/
structure SynOption where
  isPut : Bool
  strike : ℝ
  bid : ℝ
  ask : ℝ
  volume : ℕ
  open_interest : ℕ
  delta : ℝ

/-- The strike offsets of the synthetic chain: `range(-20, 21, 5)`. -/
def strikeOffsets : List ℤ := [-20, -15, -10, -5, 0, 5, 10, 15, 20]

/-- `AlpacaHistoricalDataProvider.get_historical_options` for spot `S` and
`D` days to expiry (one put and one call per strike, in chain order). -/
noncomputable def get_historical_options (S : ℝ) (D : ℤ) : List SynOption :=
  strikeOffsets.flatMap fun x =>
    let strike := round2 (S * (1 + (x : ℝ) / 100))
    let pp := provider_calculate_option_premium S strike D true
    let cp := provider_calculate_option_premium S strike D false
    [⟨true, strike, pp * 0.95, pp * 1.05, 1000, 5000,
        provider_calculate_delta S strike D true⟩,
     ⟨false, strike, cp * 0.95, cp * 1.05, 1000, 5000,
        provider_calculate_delta S strike D false⟩]

/-- `OptionQuote.spread_percentage`: `none` models the `float('inf')`
returned when ask = 0. -/
noncomputable def spread_percentage (bid ask : ℝ) : Option ℝ :=
  if ask = 0 then none else some ((ask - bid) / ask * 100)

/-- The spread clause of `StrategyAnalyzer._is_liquid`: the quote is rejected
when its spread percentage exceeds `maxSpread` (an infinite spread always
rejects). -/
noncomputable def spread_too_wide (maxSpread bid ask : ℝ) : Prop :=
  (spread_percentage bid ask).elim True fun s => maxSpread < s

lemma provider_premium_ge_floor (S K : ℝ) (D : ℤ) (isPut : Bool) :
    (0.01 : ℝ) ≤ provider_calculate_option_premium S K D isPut := by
  simp only [provider_calculate_option_premium]
  exact le_max_left _ _

lemma spread_of_synthetic (p : ℝ) (hp : (0.01 : ℝ) ≤ p) :
    0 < p * 1.05 ∧ spread_percentage (p * 0.95) (p * 1.05) = some (100 / 10.5) ∧
      ¬ spread_too_wide 15 (p * 0.95) (p * 1.05) := by
  have hp0 : p ≠ 0 := by positivity
  have hask : (0 : ℝ) < p * 1.05 := by positivity
  have hsp : spread_percentage (p * 0.95) (p * 1.05) = some (100 / 10.5) := by
    rw [spread_percentage, if_neg (ne_of_gt hask)]
    congr 1
    field_simp
    ring
  refine ⟨hask, hsp, ?_⟩
  rw [spread_too_wide, hsp]
  simp only [Option.elim_some]
  norm_num

/-- C9: every contract emitted by the synthetic chain generator has
`bid = 0.95 * premium` and `ask = 1.05 * premium` with premium >= 0.01, so
its ask is positive and its spread percentage is exactly 100/10.5 (about
9.52%), strictly below the default 15% bound: the spread clause of the
liquidity check never rejects a synthetic contract. -/
theorem c9_synthetic_spread_never_rejected (S : ℝ) (D : ℤ) :
    (get_historical_options S D).Forall fun q =>
      0 < q.ask ∧ spread_percentage q.bid q.ask = some (100 / 10.5) ∧
        ¬ spread_too_wide 15 q.bid q.ask := by
  rw [List.forall_iff_forall_mem]
  intro q hq
  rw [get_historical_options, List.mem_flatMap] at hq
  obtain ⟨x, _, hq⟩ := hq
  simp only [List.mem_cons, List.not_mem_nil, or_false] at hq
  rcases hq with rfl | rfl
  · exact spread_of_synthetic _ (provider_premium_ge_floor _ _ _ _)
  · exact spread_of_synthetic _ (provider_premium_ge_floor _ _ _ _)

/-! ## Claim C5: the Sharpe ratio of the performance reporters

`pctChange` models `pandas.Series.pct_change().dropna()` (the decimal engine
keeps the leading NaN, which pandas' skipna mean/std then ignore, so both
engines aggregate the same n-1 simple returns); `lmean`/`sampleVar`/
`sampleStd` model pandas' skipna mean and ddof=1 std. -/

/-- Daily simple returns of a value series. -/
noncomputable def pctChange (vs : List ℝ) : List ℝ :=
  (vs.tail.zip vs).map fun p => p.1 / p.2 - 1

/-- pandas mean. -/
noncomputable def lmean (l : List ℝ) : ℝ := l.sum / l.length

/-- pandas var (ddof = 1). -/
noncomputable def sampleVar (l : List ℝ) : ℝ :=
  (l.map fun x => (x - lmean l) ^ 2).sum / ((l.length : ℝ) - 1)

/-- pandas std (ddof = 1). -/
noncomputable def sampleStd (l : List ℝ) : ℝ := Real.sqrt (sampleVar l)

/-- The fast engine's Sharpe (`FastBacktester._generate_results`):
`(mean(r) * 252) / (std(r) * sqrt 252)` when there is at least one return of
positive std, else 0. -/
noncomputable def fast_sharpe (vs : List ℝ) : ℝ :=
  let r := pctChange vs
  if 0 < r.length ∧ 0 < sampleStd r then
    (lmean r * 252) / (sampleStd r * Real.sqrt 252)
  else 0

/-- The decimal engine's Sharpe (`WheelBacktester._generate_backtest_results`):
excess returns `r - 0.02/252` are formed first, then
`mean(excess)/std(excess) * sqrt 252` when the std is nonzero, else 0. -/
noncomputable def wheel_sharpe (vs : List ℝ) : ℝ :=
  let r := pctChange vs
  let ex := r.map fun x => x - 0.02 / 252
  if sampleStd ex ≠ 0 then lmean ex / sampleStd ex * Real.sqrt 252 else 0

lemma sum_map_sub (l : List ℝ) (c : ℝ) :
    (l.map fun x => x - c).sum = l.sum - l.length * c := by
  induction l with
  | nil => simp
  | cons a t ih =>
    simp [ih]
    ring

lemma lmean_map_sub (l : List ℝ) (c : ℝ) (h : l ≠ []) :
    lmean (l.map fun x => x - c) = lmean l - c := by
  have hn : (l.length : ℝ) ≠ 0 := by
    have := List.length_pos.mpr h
    positivity
  simp only [lmean, sum_map_sub, List.length_map]
  field_simp

lemma sampleVar_map_sub (l : List ℝ) (c : ℝ) :
    sampleVar (l.map fun x => x - c) = sampleVar l := by
  rcases eq_or_ne l [] with rfl | h
  · simp
  · simp only [sampleVar, List.length_map, lmean_map_sub l c h, List.map_map]
    have hf : ((fun x => (x - (lmean l - c)) ^ 2) ∘ fun x => x - c)
        = fun x : ℝ => (x - lmean l) ^ 2 := by
      funext x
      simp only [Function.comp_apply]
      ring
    rw [hf]

lemma sampleStd_map_sub (l : List ℝ) (c : ℝ) :
    sampleStd (l.map fun x => x - c) = sampleStd l := by
  rw [sampleStd, sampleStd, sampleVar_map_sub]

lemma sampleStd_nil : sampleStd ([] : List ℝ) = 0 := by
  simp [sampleStd, sampleVar]

/-- C5 counterexample: on the three-day series 1, 2, 1 the decimal engine's
reported Sharpe is NOT `mean(r)/std(r) * sqrt 252`: it subtracts the daily
risk-free rate 0.02/252 from each return first, which shifts the mean. -/
theorem c5_sharpe_counterexample :
    wheel_sharpe [1, 2, 1] ≠
      lmean (pctChange [1, 2, 1]) / sampleStd (pctChange [1, 2, 1])
        * Real.sqrt 252 := by
  have hr : pctChange [(1 : ℝ), 2, 1] = [1, -(1/2)] := by
    norm_num [pctChange]
  have hex : ([(1 : ℝ), -(1/2)]).map (fun x => x - 0.02 / 252)
      = [1 - 1/12600, -(1/2) - 1/12600] := by
    norm_num
  have hv : sampleVar [(1 : ℝ), -(1/2)] = 9/8 := by
    norm_num [sampleVar, lmean]
  have hv2 : sampleVar [(1 : ℝ) - 1/12600, -(1/2) - 1/12600] = 9/8 := by
    norm_num [sampleVar, lmean]
  have hm : lmean [(1 : ℝ), -(1/2)] = 1/4 := by norm_num [lmean]
  have hm2 : lmean [(1 : ℝ) - 1/12600, -(1/2) - 1/12600] = 1/4 - 1/12600 := by
    norm_num [lmean]
  have hspos : (0 : ℝ) < Real.sqrt (9/8) := Real.sqrt_pos.mpr (by norm_num)
  have h252pos : (0 : ℝ) < Real.sqrt 252 := Real.sqrt_pos.mpr (by norm_num)
  simp only [wheel_sharpe, hr, hex]
  rw [if_pos (by rw [sampleStd, hv2]; positivity)]
  rw [sampleStd, sampleStd, hv, hv2, hm, hm2]
  apply ne_of_lt
  gcongr
  norm_num

/-- C5 amended: when the daily returns have zero (sample) standard deviation
both engines report Sharpe exactly 0; when the std is positive, the fast
engine reports `mean(r)/std(r) * sqrt 252` exactly as the claim states, while
the decimal engine reports `(mean(r) - 0.02/252)/std(r) * sqrt 252`,
subtracting a daily risk-free rate from the mean first. -/
theorem c5_sharpe (vs : List ℝ) :
    (sampleStd (pctChange vs) = 0 →
      fast_sharpe vs = 0 ∧ wheel_sharpe vs = 0) ∧
    (0 < sampleStd (pctChange vs) →
      fast_sharpe vs
          = lmean (pctChange vs) / sampleStd (pctChange vs) * Real.sqrt 252 ∧
      wheel_sharpe vs
          = (lmean (pctChange vs) - 0.02 / 252) / sampleStd (pctChange vs)
              * Real.sqrt 252) := by
  constructor
  · intro h
    constructor
    · simp only [fast_sharpe]
      rw [if_neg]
      intro hcon
      rw [h] at hcon
      exact lt_irrefl 0 hcon.2
    · simp only [wheel_sharpe]
      rw [if_neg]
      simp only [ne_eq, not_not]
      rw [sampleStd_map_sub, h]
  · intro h
    have hne : pctChange vs ≠ [] := by
      intro hcon
      rw [hcon, sampleStd_nil] at h
      exact lt_irrefl 0 h
    have hs : sampleStd (pctChange vs) ≠ 0 := ne_of_gt h
    have h252 : (Real.sqrt 252) ^ 2 = 252 := Real.sq_sqrt (by norm_num)
    have h252pos : (0 : ℝ) < Real.sqrt 252 := Real.sqrt_pos.mpr (by norm_num)
    constructor
    · simp only [fast_sharpe]
      rw [if_pos ⟨List.length_pos.mpr hne, h⟩]
      field_simp
      linear_combination -(lmean (pctChange vs) * sampleStd (pctChange vs)) * h252
    · simp only [wheel_sharpe]
      rw [if_pos (by rw [sampleStd_map_sub]; exact hs)]
      rw [sampleStd_map_sub, lmean_map_sub _ _ hne]

/-- Witness for C5 amended: the flat series 1, 1, 1 has zero-variance returns
and both engines report Sharpe 0; the series 1, 2, 1 has returns of positive
std and both engines report their respective closed forms. -/
theorem c5_sharpe_witness :
    (fast_sharpe [1, 1, 1] = 0 ∧ wheel_sharpe [1, 1, 1] = 0) ∧
    (fast_sharpe [1, 2, 1]
        = lmean (pctChange [1, 2, 1]) / sampleStd (pctChange [1, 2, 1])
            * Real.sqrt 252 ∧
      wheel_sharpe [1, 2, 1]
        = (lmean (pctChange [1, 2, 1]) - 0.02 / 252)
            / sampleStd (pctChange [1, 2, 1]) * Real.sqrt 252) := by
  constructor
  · refine (c5_sharpe [1, 1, 1]).1 ?_
    have hr : pctChange [(1 : ℝ), 1, 1] = [0, 0] := by
      norm_num [pctChange]
    rw [hr, sampleStd]
    have hv : sampleVar [(0 : ℝ), 0] = 0 := by
      norm_num [sampleVar, lmean]
    rw [hv, Real.sqrt_zero]
  · refine (c5_sharpe [1, 2, 1]).2 ?_
    have hr : pctChange [(1 : ℝ), 2, 1] = [1, -(1/2)] := by
      norm_num [pctChange]
    have hv : sampleVar [(1 : ℝ), -(1/2)] = 9/8 := by
      norm_num [sampleVar, lmean]
    rw [hr, sampleStd, hv]
    positivity

/-! ## Claim C6: the win rate of the performance reporters

In the fast engine wins are the actions EXPIRED, CC_EXPIRED, CALLED_AWAY and
the closed events additionally include ASSIGNED (`win_rate = wins /
max(1, total_closed)`); in the decimal engine the same sets are named
PUT_EXPIRED, CALL_EXPIRED, CALL_ASSIGNED and PUT_ASSIGNED, with an explicit
`total > 0` guard.  Both engines' action sets are modelled by one type. -/

/-- An action counts as a win: expiration without assignment or a call-away. -/
def isWinAction : TradeAction → Bool
  | .putExpired => true
  | .callExpired => true
  | .callAssigned => true
  | _ => false

/-- An action counts as a closed event: a win or a put assignment. -/
def isClosedAction : TradeAction → Bool
  | .putExpired => true
  | .callExpired => true
  | .callAssigned => true
  | .putAssigned => true
  | _ => false

/-- `win_rate = wins / max(1, total_closed)` of
`FastBacktester._generate_results`. -/
def fast_win_rate (trades : List TradeAction) : ℚ :=
  ((trades.countP isWinAction : ℕ) : ℚ)
    / ((max 1 (trades.countP isClosedAction) : ℕ) : ℚ)

/-- The win rate of `WheelBacktester._generate_backtest_results` (explicit
`total_closed_actions > 0` guard, else 0). -/
def wheel_win_rate (trades : List TradeAction) : ℚ :=
  let closed := trades.countP isClosedAction
  if 0 < closed then ((trades.countP isWinAction : ℕ) : ℚ) / (closed : ℚ) else 0

lemma countP_win_le_closed (t : List TradeAction) :
    t.countP isWinAction ≤ t.countP isClosedAction := by
  induction t with
  | nil => simp
  | cons a l ih =>
    simp only [List.countP_cons]
    cases a <;> simp [isWinAction, isClosedAction] <;> omega

/-- C6: in both engines the reported win rate is wins / closed events, where
wins are exactly the expirations-without-assignment and call-aways and the
closed events additionally count put assignments; with no closed events the
win rate is 0. -/
theorem c6_win_rate (t : List TradeAction) :
    (t.countP isClosedAction = 0 →
      fast_win_rate t = 0 ∧ wheel_win_rate t = 0) ∧
    (0 < t.countP isClosedAction →
      fast_win_rate t
          = ((t.countP isWinAction : ℕ) : ℚ) / ((t.countP isClosedAction : ℕ) : ℚ) ∧
      wheel_win_rate t
          = ((t.countP isWinAction : ℕ) : ℚ) / ((t.countP isClosedAction : ℕ) : ℚ)) := by
  constructor
  · intro h
    have hw : t.countP isWinAction = 0 :=
      Nat.le_zero.mp (h ▸ countP_win_le_closed t)
    constructor
    · rw [fast_win_rate, hw]
      simp
    · rw [wheel_win_rate]
      simp [h]
  · intro h
    have hm : max 1 (t.countP isClosedAction) = t.countP isClosedAction :=
      Nat.max_eq_right h
    constructor
    · rw [fast_win_rate, hm]
    · rw [wheel_win_rate]
      simp only [if_pos h]

/-- Witness for C6: a lone SELL_CSP gives no closed events and win rate 0; a
PUT_EXPIRED followed by a PUT_ASSIGNED gives 2 closed events and 1 win. -/
theorem c6_win_rate_witness :
    (fast_win_rate [.sellPut] = 0 ∧ wheel_win_rate [.sellPut] = 0) ∧
    (fast_win_rate [.putExpired, .putAssigned]
        = ((([.putExpired, .putAssigned] : List TradeAction).countP isWinAction : ℕ) : ℚ)
          / ((([.putExpired, .putAssigned] : List TradeAction).countP isClosedAction : ℕ) : ℚ) ∧
      wheel_win_rate [.putExpired, .putAssigned]
        = ((([.putExpired, .putAssigned] : List TradeAction).countP isWinAction : ℕ) : ℚ)
          / ((([.putExpired, .putAssigned] : List TradeAction).countP isClosedAction : ℕ) : ℚ)) :=
  ⟨(c6_win_rate [.sellPut]).1 (by decide),
   (c6_win_rate [.putExpired, .putAssigned]).2 (by decide)⟩

/-! ## Claim C8: RSI with insufficient history

`StrategyAnalyzer._calculate_rsi` returns the neutral 50.0 when fewer than
`periods + 1` closes exist; `PriceCache.get_rsi` instead takes the last
`period + 10` closes and returns `None` when fewer than `period + 1` remain.
The full computation (consecutive diffs, rolling means of gains and losses
over the last `periods` diffs, `RSI = 100 - 100/(1+RS)`) is embedded for both;
`get_rsi` additionally replaces a zero average loss by 0.0001. -/

/-- Consecutive differences (`Series.diff()` with the leading NaN dropped). -/
def diffs (l : List ℚ) : List ℚ := (l.tail.zip l).map fun p => p.1 - p.2

/-- The last value of `Series.rolling(n).mean()`: the mean of the last `n`
entries. -/
def rollingMeanLast (n : ℕ) (l : List ℚ) : ℚ :=
  (l.drop (l.length - n)).sum / (n : ℚ)

/-- `StrategyAnalyzer._calculate_rsi(price_data, periods)`. -/
def calculate_rsi (closes : List ℚ) (periods : ℕ) : ℚ :=
  if closes.length < periods + 1 then 50
  else
    let d := diffs closes
    let gains := d.map fun x => if 0 < x then x else 0
    let losses := d.map fun x => if x < 0 then -x else 0
    let rs := rollingMeanLast periods gains / rollingMeanLast periods losses
    100 - 100 / (1 + rs)

/-- `PriceCache.get_rsi(closes up to the day, period)` of the fast engine. -/
def cache_get_rsi (closes : List ℚ) (period : ℕ) : Option ℚ :=
  let l := closes.drop (closes.length - (period + 10))
  if l.length < period + 1 then none
  else
    let d := diffs l
    let gains := d.map fun x => if 0 < x then x else 0
    let losses := d.map fun x => if x < 0 then -x else 0
    let avgGain := rollingMeanLast period gains
    let avgLossRaw := rollingMeanLast period losses
    let avgLoss := if avgLossRaw = 0 then 1 / 10000 else avgLossRaw
    some (100 - 100 / (1 + avgGain / avgLoss))

/-- C8 counterexample: with only three closes the fast engine's RSI lookup
returns `None` (the entry is then skipped), not the neutral 50.0 the claim
states every RSI computation returns. -/
theorem c8_short_history_counterexample :
    cache_get_rsi [1, 2, 3] 14 = none ∧ (none : Option ℚ) ≠ some 50 := by
  constructor
  · rfl
  · simp

/-- C8 amended: with fewer than 15 price points the analyzer's
`_calculate_rsi` returns the neutral 50.0, while the fast engine's
`get_rsi` returns `None`; under both conventions the caller suppresses the
entry, and neither fails. -/
theorem c8_rsi_short_history (closes : List ℚ) (h : closes.length < 15) :
    calculate_rsi closes 14 = 50 ∧ cache_get_rsi closes 14 = none := by
  constructor
  · rw [calculate_rsi, if_pos (by omega)]
  · have hd : closes.length - (14 + 10) = 0 := by omega
    simp only [cache_get_rsi, hd, List.drop_zero]
    rw [if_pos (by omega)]

/-- Witness for C8 amended, at the three-point series of the counterexample's
shape. -/
theorem c8_rsi_short_history_witness :
    ([(1 : ℚ), 2, 3] : List ℚ).length < 15 ∧
    calculate_rsi [1, 2, 3] 14 = 50 ∧ cache_get_rsi [1, 2, 3] 14 = none :=
  ⟨by decide,
   (c8_rsi_short_history [1, 2, 3] (by decide)).1,
   (c8_rsi_short_history [1, 2, 3] (by decide)).2⟩
